import Mathlib

/-!
Verification of the LungLife ML prediction service.

Shallow embedding of the feature-derivation, risk-classification,
explanation-ranking and orchestration logic of the FastAPI service under
`deployment/ml_service/app/`.  Real numbers of the Python code are modelled
as rationals (`ℚ`), Python strings as `String` / `List Char`, and the opaque
trained classifier as an explicit function parameter.
-/

namespace LungLife

/- ### Risk classification (app/core/model_loader.py, `_classify_risk`)

4-tier scheme: LOW < 0.3 ≤ MODERATE < 0.5 ≤ HIGH < 0.7 ≤ VERY_HIGH. -/

inductive RiskLevel4 where
  | LOW | MODERATE | HIGH | VERY_HIGH
deriving DecidableEq, Repr

def classifyRisk (probability : ℚ) : RiskLevel4 :=
  if probability < 3/10 then .LOW
  else if probability < 1/2 then .MODERATE
  else if probability < 7/10 then .HIGH
  else .VERY_HIGH

/-- Embeds `_calculate_confidence` of model_loader.py (identical code also appears in
prediction_router.py as `calculate_confidence` and in prediction_service.py as
`_calculate_confidence`): distance from the 0.5 decision boundary, times 2. -/
def calculateConfidence (probability : ℚ) : ℚ :=
  |probability - 1/2| * 2

/- ### 3-tier scheme (app/prediction_router.py `classify_risk_level`,
app/services/prediction_service.py `_classify_risk`) -/

inductive RiskLevel3 where
  | low | medium | high
deriving DecidableEq, Repr

def classifyRiskLevel (probability : ℚ) : RiskLevel3 :=
  if 7/10 ≤ probability then .high
  else if 4/10 ≤ probability then .medium
  else .low

/-- Threshold constants of `PredictionService` (prediction_service.py). -/
def HIGH_RISK_THRESHOLD : ℚ := 7/10

def MEDIUM_RISK_THRESHOLD : ℚ := 4/10

def REVIEW_LOWER_BOUND : ℚ := 3/10

def REVIEW_UPPER_BOUND : ℚ := 7/10

/-- Embeds `PredictionService._classify_risk`. -/
def serviceClassifyRisk (probability : ℚ) : RiskLevel3 :=
  if HIGH_RISK_THRESHOLD ≤ probability then .high
  else if MEDIUM_RISK_THRESHOLD ≤ probability then .medium
  else .low

/-- Embeds `requires_medical_review` of prediction_router.py:
`0.3 <= probability <= 0.7`. -/
def requiresMedicalReview (probability : ℚ) : Bool :=
  decide (3/10 ≤ probability ∧ probability ≤ 7/10)

/-- Embeds `PredictionService._requires_manual_review`:
`REVIEW_LOWER_BOUND <= probability <= REVIEW_UPPER_BOUND`. -/
def requiresManualReview (probability : ℚ) : Bool :=
  decide (REVIEW_LOWER_BOUND ≤ probability ∧ probability ≤ REVIEW_UPPER_BOUND)

/-- C2: for every probability `p`, `_classify_risk` of model_loader.py returns
LOW if p < 0.3, MODERATE on [0.3, 0.5), HIGH on [0.5, 0.7), VERY_HIGH for
p ≥ 0.7; each exact boundary value (0.3, 0.5, 0.7) lands in the higher of the
two adjacent tiers. -/
theorem classify_risk_four_tier (p : ℚ) :
    (p < 3/10 → classifyRisk p = .LOW) ∧
    (3/10 ≤ p → p < 1/2 → classifyRisk p = .MODERATE) ∧
    (1/2 ≤ p → p < 7/10 → classifyRisk p = .HIGH) ∧
    (7/10 ≤ p → classifyRisk p = .VERY_HIGH) ∧
    classifyRisk (3/10) = .MODERATE ∧
    classifyRisk (1/2) = .HIGH ∧
    classifyRisk (7/10) = .VERY_HIGH := by
  refine ⟨?_, ?_, ?_, ?_, ?_, ?_, ?_⟩
  · intro h; simp only [classifyRisk, if_pos h]
  · intro h1 h2
    simp only [classifyRisk, if_neg (not_lt.mpr h1), if_pos h2]
  · intro h1 h2
    have hn1 : ¬ p < 3/10 := by linarith
    have hn2 : ¬ p < 1/2 := by linarith
    simp only [classifyRisk, if_neg hn1, if_neg hn2, if_pos h2]
  · intro h
    have hn1 : ¬ p < 3/10 := by linarith
    have hn2 : ¬ p < 1/2 := by linarith
    have hn3 : ¬ p < 7/10 := by linarith
    simp only [classifyRisk, if_neg hn1, if_neg hn2, if_neg hn3]
  · norm_num [classifyRisk]
  · norm_num [classifyRisk]
  · norm_num [classifyRisk]

theorem classify_risk_four_tier_witness :
    classifyRisk (2/10) = .LOW ∧
    classifyRisk (4/10) = .MODERATE ∧
    classifyRisk (6/10) = .HIGH ∧
    classifyRisk (8/10) = .VERY_HIGH :=
  ⟨(classify_risk_four_tier (2/10)).1 (by norm_num),
   (classify_risk_four_tier (4/10)).2.1 (by norm_num) (by norm_num),
   (classify_risk_four_tier (6/10)).2.2.1 (by norm_num) (by norm_num),
   (classify_risk_four_tier (8/10)).2.2.2.1 (by norm_num)⟩

/-- C3: in both components that compute it (prediction_router.py
`requires_medical_review` and prediction_service.py
`_requires_manual_review`), requires_review holds iff 0.3 ≤ p ≤ 0.7, a closed
interval; in particular it is true at exactly p = 0.7 in both. -/
theorem requires_review_closed_band (p : ℚ) :
    (requiresMedicalReview p = true ↔ 3/10 ≤ p ∧ p ≤ 7/10) ∧
    (requiresManualReview p = true ↔ 3/10 ≤ p ∧ p ≤ 7/10) ∧
    requiresMedicalReview (7/10) = true ∧
    requiresManualReview (7/10) = true := by
  refine ⟨?_, ?_, ?_, ?_⟩
  · norm_num [requiresMedicalReview]
  · norm_num [requiresManualReview, REVIEW_LOWER_BOUND, REVIEW_UPPER_BOUND]
  · norm_num [requiresMedicalReview]
  · norm_num [requiresManualReview, REVIEW_LOWER_BOUND, REVIEW_UPPER_BOUND]

/- ### Python rounding

`round(x, 4)` in Python rounds half to even ("banker's rounding").  The
service rounds the probability and confidence fields to 4 decimal places
before returning them. -/

/-- Round half to even, the rounding mode of Python's built-in `round`. -/
def roundHalfEven (x : ℚ) : ℤ :=
  if Int.fract x < 1/2 then ⌊x⌋
  else if 1/2 < Int.fract x then ⌊x⌋ + 1
  else if ⌊x⌋ % 2 = 0 then ⌊x⌋ else ⌊x⌋ + 1

/-- Python's `round(x, 4)`. -/
def pyRound4 (x : ℚ) : ℚ :=
  (roundHalfEven (x * 10000) : ℚ) / 10000

theorem roundHalfEven_ge_floor (x : ℚ) : ⌊x⌋ ≤ roundHalfEven x := by
  unfold roundHalfEven
  split_ifs <;> omega

theorem roundHalfEven_le_floor_add_one (x : ℚ) : roundHalfEven x ≤ ⌊x⌋ + 1 := by
  unfold roundHalfEven
  split_ifs <;> omega

theorem roundHalfEven_mono {x y : ℚ} (h : x ≤ y) :
    roundHalfEven x ≤ roundHalfEven y := by
  by_cases hf : ⌊x⌋ = ⌊y⌋
  · have hfx' : Int.fract x = x - ⌊x⌋ := rfl
    have hfy' : Int.fract y = y - ⌊y⌋ := rfl
    have hfr : Int.fract x ≤ Int.fract y := by
      rw [hfx', hfy', hf]
      linarith
    by_contra hcon
    push_neg at hcon
    have hx_ub := roundHalfEven_le_floor_add_one x
    have hx_lb := roundHalfEven_ge_floor x
    have hy_ub := roundHalfEven_le_floor_add_one y
    have hy_lb := roundHalfEven_ge_floor y
    rw [hf] at hx_ub hx_lb
    have hxv : roundHalfEven x = ⌊y⌋ + 1 := by omega
    have hyv : roundHalfEven y = ⌊y⌋ := by omega
    have hfx : ¬ Int.fract x < 1/2 := by
      intro hlt
      have hx0 : roundHalfEven x = ⌊x⌋ := by
        unfold roundHalfEven
        rw [if_pos hlt]
      omega
    have hfy : ¬ 1/2 < Int.fract y := by
      intro hgt
      have hy0 : roundHalfEven y = ⌊y⌋ + 1 := by
        unfold roundHalfEven
        rw [if_neg (by linarith), if_pos hgt]
      omega
    have h12x : Int.fract x = 1/2 := by
      have h1 := not_lt.mp hfx
      have h2 := not_lt.mp hfy
      linarith
    have h12y : Int.fract y = 1/2 := by
      have h1 := not_lt.mp hfx
      have h2 := not_lt.mp hfy
      linarith
    have hxv2 : roundHalfEven x = if ⌊x⌋ % 2 = 0 then ⌊x⌋ else ⌊x⌋ + 1 := by
      unfold roundHalfEven
      rw [h12x]
      norm_num
    have hyv2 : roundHalfEven y = if ⌊y⌋ % 2 = 0 then ⌊y⌋ else ⌊y⌋ + 1 := by
      unfold roundHalfEven
      rw [h12y]
      norm_num
    rw [hf] at hxv2
    split_ifs at hxv2 hyv2 <;> omega
  · have hlt : ⌊x⌋ < ⌊y⌋ := lt_of_le_of_ne (Int.floor_le_floor h) hf
    calc roundHalfEven x ≤ ⌊x⌋ + 1 := roundHalfEven_le_floor_add_one x
      _ ≤ ⌊y⌋ := by omega
      _ ≤ roundHalfEven y := roundHalfEven_ge_floor y

theorem roundHalfEven_neg (x : ℚ) : roundHalfEven (-x) = -roundHalfEven x := by
  by_cases h0 : Int.fract x = 0
  · have hx : x = (⌊x⌋ : ℚ) := by
      have := Int.fract_add_floor x
      linarith [this]
    have hnegfl : ⌊-x⌋ = -⌊x⌋ := by
      have hneg : -x = ((-⌊x⌋ : ℤ) : ℚ) := by
        push_cast
        linarith
      rw [hneg, Int.floor_intCast]
    have hnegfr : Int.fract (-x) = 0 := by
      unfold Int.fract
      rw [hnegfl]
      push_cast
      linarith
    unfold roundHalfEven
    rw [h0, hnegfr, hnegfl]
    norm_num
  · have hfr : Int.fract (-x) = 1 - Int.fract x := Int.fract_neg h0
    have hfr_pos : 0 < Int.fract x := lt_of_le_of_ne (Int.fract_nonneg x) (Ne.symm h0)
    have hfr_lt : Int.fract x < 1 := Int.fract_lt_one x
    have hnegfl : ⌊-x⌋ = -⌊x⌋ - 1 := by
      have h1 : Int.fract (-x) = -x - ⌊-x⌋ := rfl
      have h2 : Int.fract x = x - ⌊x⌋ := rfl
      have : (⌊-x⌋ : ℚ) = ((-⌊x⌋ - 1 : ℤ) : ℚ) := by
        push_cast
        linarith [hfr, h1, h2]
      exact_mod_cast this
    rcases lt_trichotomy (Int.fract x) (1/2) with hlt | heq | hgt
    · have hnlt : ¬ Int.fract (-x) < 1/2 := by rw [hfr]; push_neg; linarith
      have hngt : 1/2 < Int.fract (-x) := by rw [hfr]; linarith
      unfold roundHalfEven
      rw [if_pos hlt, if_neg hnlt, if_pos hngt, hnegfl]
      ring
    · have hfr' : Int.fract (-x) = 1/2 := by rw [hfr, heq]; norm_num
      unfold roundHalfEven
      rw [heq, hfr', hnegfl]
      norm_num
      split_ifs <;> omega
    · have hlt' : Int.fract (-x) < 1/2 := by rw [hfr]; linarith
      have hnlt : ¬ Int.fract x < 1/2 := by linarith
      unfold roundHalfEven
      rw [if_pos hlt', if_neg hnlt, if_pos hgt, hnegfl]
      ring

theorem pyRound4_mono {x y : ℚ} (h : x ≤ y) : pyRound4 x ≤ pyRound4 y := by
  unfold pyRound4
  have hm : x * 10000 ≤ y * 10000 := by nlinarith
  have := roundHalfEven_mono hm
  have hc : (roundHalfEven (x * 10000) : ℚ) ≤ (roundHalfEven (y * 10000) : ℚ) :=
    Int.cast_le.mpr this
  linarith

theorem pyRound4_neg (x : ℚ) : pyRound4 (-x) = -pyRound4 x := by
  unfold pyRound4
  rw [show -x * 10000 = -(x * 10000) by ring, roundHalfEven_neg]
  push_cast
  ring

theorem pyRound4_zero : pyRound4 0 = 0 := by
  have h0 : Int.fract (0 : ℚ) = 0 := Int.fract_zero
  unfold pyRound4 roundHalfEven
  norm_num [h0]

theorem pyRound4_abs (x : ℚ) : |pyRound4 x| = pyRound4 |x| := by
  rcases le_or_lt 0 x with hx | hx
  · rw [abs_of_nonneg hx]
    have : 0 ≤ pyRound4 x := pyRound4_zero ▸ pyRound4_mono hx
    rw [abs_of_nonneg this]
  · rw [abs_of_neg hx]
    have h1 : pyRound4 x ≤ 0 := pyRound4_zero ▸ pyRound4_mono (le_of_lt hx)
    rw [abs_of_nonpos h1, ← pyRound4_neg]

theorem abs_pyRound4_mono {x y : ℚ} (h : |x| ≤ |y|) :
    |pyRound4 x| ≤ |pyRound4 y| := by
  rw [pyRound4_abs, pyRound4_abs]
  exact pyRound4_mono h

/-- Probabilities in `[0.69995, 0.7)` are reported as exactly `0.7` after
Python's `round(p, 4)`. -/
theorem pyRound4_band {p : ℚ} (h1 : 69995/100000 ≤ p) (h2 : p < 7/10) :
    pyRound4 p = 7/10 := by
  have hfl : ⌊p * 10000⌋ = 6999 := by
    rw [Int.floor_eq_iff]
    constructor
    · push_cast; linarith
    · push_cast; linarith
  have hfr : 1/2 ≤ Int.fract (p * 10000) := by
    have : Int.fract (p * 10000) = p * 10000 - ⌊p * 10000⌋ := rfl
    rw [this, hfl]
    push_cast
    linarith
  have hround : roundHalfEven (p * 10000) = 7000 := by
    unfold roundHalfEven
    rw [hfl]
    split_ifs with ha hb hc
    · linarith
    · rfl
    · omega
    · rfl
  unfold pyRound4
  rw [hround]
  norm_num

/- ### Patient data (app/api/routes/prediction.py, `PatientData`) -/

structure PatientData where
  age : ℤ
  gender : String
  years_smoked : ℤ
  pack_years : ℚ
  smoking_history : String
  bmi : ℚ
  lung_function_test_result : ℚ
  tumor_size_cm : ℚ
  air_quality_index : ℤ
  exposure_to_toxins : Bool
  residential_area : String
  chest_pain_symptoms : Bool
  shortness_of_breath : Bool
  chronic_cough : Bool
  weight_loss : Bool
  family_history_cancer : Bool
  previous_cancer_diagnosis : Bool
  comorbidities : Option String
  physical_activity_level : String
  dietary_habits : String
  occupation : String

/-- Python `str.lower()` (character-wise, as used on the ASCII enum values). -/
def pyLower (s : String) : String :=
  ⟨s.data.map Char.toLower⟩

/-- Python `str.upper()`. -/
def pyUpper (l : List Char) : List Char :=
  l.map Char.toUpper

/-- Python `s.split(",")`: comma-separated tokens, empty tokens included;
always one more token than there are commas. -/
def splitOnComma : List Char → List (List Char)
  | [] => [[]]
  | c :: cs =>
    if c = ',' then [] :: splitOnComma cs
    else
      match splitOnComma cs with
      | t :: ts => (c :: t) :: ts
      | [] => [[c]]

theorem splitOnComma_ne_nil (l : List Char) : splitOnComma l ≠ [] := by
  cases l with
  | nil => simp [splitOnComma]
  | cons c cs =>
    rw [splitOnComma]
    split_ifs
    · simp
    · cases h : splitOnComma cs <;> simp

theorem splitOnComma_length (l : List Char) :
    (splitOnComma l).length = l.count ',' + 1 := by
  induction l with
  | nil => simp [splitOnComma]
  | cons c cs ih =>
    rw [splitOnComma]
    by_cases hc : c = ','
    · rw [if_pos hc]
      simp only [List.length_cons, ih, hc, List.count_cons]
      simp
    · rw [if_neg hc]
      rcases hsp : splitOnComma cs with _ | ⟨t, ts⟩
      · exact absurd hsp (splitOnComma_ne_nil cs)
      · have hlen : (t :: ts).length = cs.count ',' + 1 := hsp ▸ ih
        simp only [List.length_cons] at hlen ⊢
        rw [List.count_cons]
        simp [hc, hlen]

/-- Embeds `comorbidities_count` of `patient_to_features`: 0 when the optional field
is `None` or empty or case-insensitively equals the sentinel "NONE", else
`len(s.split(","))`. -/
def comorbiditiesCount : Option String → ℕ
  | none => 0
  | some s =>
    if s.data ≠ [] ∧ pyUpper s.data ≠ ("NONE").data then (splitOnComma s.data).length
    else 0

/-- Occupation encoding of `patient_to_features`:
`abs(hash(occupation.lower())) % 10 / 10.0`.  `pyHash` stands for the Python
runtime's string hash, which is salted per process. -/
def occupationEncode (pyHash : String → ℤ) (occupation : String) : ℚ :=
  (((pyHash (pyLower occupation)).natAbs % 10 : ℕ) : ℚ) / 10

/-- Gender encoding: 1 for "male"/"m"/"masculino" (lower-cased), else 0. -/
def genderEncode (gender : String) : ℤ :=
  if pyLower gender ∈ ["male", "m", "masculino"] then 1 else 0

/-- Embeds `smoking_map.get(smoking_history.lower(), 0)`. -/
def smokingEncode (smoking_history : String) : ℤ :=
  match pyLower smoking_history with
  | "never" => 0
  | "former" => 1
  | "current" => 2
  | _ => 0

/-- Embeds `area_map.get(residential_area.lower(), 0)`. -/
def residentialEncode (residential_area : String) : ℤ :=
  match pyLower residential_area with
  | "urban" => 0
  | "suburban" => 1
  | "rural" => 2
  | _ => 0

/-- Embeds `activity_map.get(physical_activity_level.lower(), 1)`. -/
def activityEncode (physical_activity_level : String) : ℤ :=
  match pyLower physical_activity_level with
  | "low" => 0
  | "moderate" => 1
  | "high" => 2
  | _ => 1

/-- Embeds `diet_map.get(dietary_habits.lower(), 1)`. -/
def dietEncode (dietary_habits : String) : ℤ :=
  match pyLower dietary_habits with
  | "poor" => 0
  | "average" => 1
  | "good" => 2
  | _ => 1

/-- Embeds `pack_years_normalized = min(pack_years / 100.0, 1.0)` as in
`patient_to_features` (routes/prediction.py, cap 100). -/
def packYearsNormalizedRoutes (pack_years : ℚ) : ℚ :=
  min (pack_years / 100) 1

/-- Embeds `Pack_Years_Normalized = min(pack_years / 50.0, 1.0)` as in
`PredictionService._add_derived_features` (cap 50). -/
def packYearsNormalizedService (pack_years : ℚ) : ℚ :=
  min (pack_years / 50) 1

/-- Smoking risk tier of `patient_to_features`. -/
def smokingRisk (smoking_encoded : ℤ) (pack_years : ℚ) : ℤ :=
  if smoking_encoded = 0 then 0
  else if 30 < pack_years then 3
  else if 15 < pack_years then 2
  else 1

/-- Symptom count of `patient_to_features`. -/
def symptomCount (p : PatientData) : ℤ :=
  (if p.chest_pain_symptoms then 1 else 0) +
  (if p.shortness_of_breath then 1 else 0) +
  (if p.chronic_cough then 1 else 0) +
  (if p.weight_loss then 1 else 0)

/-- Environmental risk of `patient_to_features`:
`(1 if air_quality_index > 100 else 0) + int(exposure_to_toxins)`. -/
def environmentalRiskRoutes (air_quality_index : ℤ) (exposure_to_toxins : Bool) : ℚ :=
  (if 100 < air_quality_index then 1 else 0) + (if exposure_to_toxins then 1 else 0)

/-- Environmental risk as the spec states it, for comparison:
`(air_quality_index > 100 ? 1 : 0) + (exposure_to_toxins ? 1 : 0)`. -/
def environmentalRiskSpec (air_quality_index : ℤ) (exposure_to_toxins : Bool) : ℚ :=
  (if 100 < air_quality_index then 1 else 0) + (if exposure_to_toxins then 1 else 0)

/-- Environmental risk of `PredictionService._add_derived_features`:
`(aqi / 500.0) + (0.3 if toxins else 0)`. -/
def environmentalRiskService (air_quality_index : ℤ) (exposure_to_toxins : Bool) : ℚ :=
  (air_quality_index : ℚ) / 500 + (if exposure_to_toxins then 3/10 else 0)

/-- Composite risk score of `patient_to_features`. -/
def riskComposite (p : PatientData) : ℚ :=
  ((p.age : ℚ) / 100) * (15/100) +
  packYearsNormalizedRoutes p.pack_years * (25/100) +
  ((symptomCount p : ℚ) / 4) * (20/100) +
  (if p.family_history_cancer then 1 else 0) * (15/100) +
  environmentalRiskRoutes p.air_quality_index p.exposure_to_toxins * (10/100) +
  (1 - p.lung_function_test_result / 100) * (15/100)

/-- Embeds `patient_to_features` (routes/prediction.py): the ordered 29-entry feature
vector.  `pyHash` is the process's string hash used for the occupation
encoding. -/
def patientToFeatures (pyHash : String → ℤ) (p : PatientData) : List ℚ :=
  [ (p.age : ℚ),                                                        -- 0 Age
    (p.years_smoked : ℚ),                                               -- 1 Years_Smoked
    p.pack_years,                                                       -- 2 Pack_Years
    p.bmi,                                                              -- 3 BMI
    p.lung_function_test_result,                                        -- 4 Lung_Function_Test_Result
    (p.air_quality_index : ℚ),                                          -- 5 Air_Quality_Index
    p.tumor_size_cm,                                                    -- 6 Tumor_Size_cm
    (if 18 ≤ p.age ∧ p.age ≤ 40 then 1 else 0),                         -- 7 Age_Group_18-40
    (if 41 ≤ p.age ∧ p.age ≤ 60 then 1 else 0),                         -- 8 Age_Group_41-60
    (if 60 < p.age then 1 else 0),                                      -- 9 Age_Group_61+
    (genderEncode p.gender : ℚ),                                        -- 10 Gender
    (smokingEncode p.smoking_history : ℚ),                              -- 11 Smoking_History
    (if p.family_history_cancer then 1 else 0),                         -- 12 Family_History_Cancer
    occupationEncode pyHash p.occupation,                               -- 13 Occupation
    (if p.exposure_to_toxins then 1 else 0),                            -- 14 Exposure_to_Toxins
    (residentialEncode p.residential_area : ℚ),                         -- 15 Residential_Area
    (if p.chest_pain_symptoms then 1 else 0),                           -- 16 Chest_Pain_Symptoms
    (if p.shortness_of_breath then 1 else 0),                           -- 17 Shortness_of_Breath
    (if p.chronic_cough then 1 else 0),                                 -- 18 Chronic_Cough
    (if p.weight_loss then 1 else 0),                                   -- 19 Weight_Loss
    (activityEncode p.physical_activity_level : ℚ),                     -- 20 Physical_Activity_Level
    (dietEncode p.dietary_habits : ℚ),                                  -- 21 Dietary_Habits
    (comorbiditiesCount p.comorbidities : ℚ),                           -- 22 Comorbidities
    (if p.previous_cancer_diagnosis then 1 else 0),                     -- 23 Previous_Cancer_Diagnosis
    packYearsNormalizedRoutes p.pack_years,                             -- 24 Pack_Years_Normalized
    (smokingRisk (smokingEncode p.smoking_history) p.pack_years : ℚ),   -- 25 Smoking_Risk_Level
    (symptomCount p : ℚ),                                               -- 26 Symptom_Count
    environmentalRiskRoutes p.air_quality_index p.exposure_to_toxins,   -- 27 Environmental_Risk
    riskComposite p ]                                                   -- 28 Risk_Score_Composite

/-- A concrete patient record: the default field values of the `PatientData`
pydantic schema. -/
def examplePatient : PatientData :=
  { age := 45
    gender := "Male"
    years_smoked := 0
    pack_years := 0
    smoking_history := "Never"
    bmi := 25
    lung_function_test_result := 85
    tumor_size_cm := 0
    air_quality_index := 50
    exposure_to_toxins := false
    residential_area := "Urban"
    chest_pain_symptoms := false
    shortness_of_breath := false
    chronic_cough := false
    weight_loss := false
    family_history_cancer := false
    previous_cancer_diagnosis := false
    comorbidities := some "NONE"
    physical_activity_level := "Moderate"
    dietary_habits := "Average"
    occupation := "Unknown" }

/-- C1: feature derivation is NOT reproducible across process restarts.  The
occupation feature is `abs(hash(occupation.lower())) % 10 / 10.0`, and
Python's string `hash` is salted per process.  Two processes whose hashes
differ (modelled as two hash functions) produce different feature vectors for
the same record, contradicting the required bit-reproducibility. -/
theorem occupation_hash_process_dependent :
    patientToFeatures (fun _ => 0) examplePatient ≠
      patientToFeatures (fun _ => 1) examplePatient := by
  intro h
  simp only [patientToFeatures, List.cons.injEq, and_true, true_and] at h
  norm_num [occupationEncode] at h

/-- C4 counterexample: `PredictionService._add_derived_features` does not use
the claimed formula; at air_quality_index = 50 with toxin exposure it yields
0.4 rather than 1. -/
theorem environmental_risk_not_uniform :
    environmentalRiskService 50 true ≠ environmentalRiskSpec 50 true := by
  norm_num [environmentalRiskService, environmentalRiskSpec]

/-- C4 (amended): in `patient_to_features` (routes/prediction.py) the derived
environmental_risk entry (index 27) equals
`(1 if air_quality_index > 100 else 0) + (1 if exposure_to_toxins else 0)`
and is one of 0, 1, 2; `PredictionService._add_derived_features` instead
computes `aqi / 500 + (0.3 if toxins else 0)`. -/
theorem environmental_risk_routes_formula (pyHash : String → ℤ) (p : PatientData) :
    (patientToFeatures pyHash p).getD 27 0 =
      environmentalRiskSpec p.air_quality_index p.exposure_to_toxins ∧
    (environmentalRiskSpec p.air_quality_index p.exposure_to_toxins = 0 ∨
     environmentalRiskSpec p.air_quality_index p.exposure_to_toxins = 1 ∨
     environmentalRiskSpec p.air_quality_index p.exposure_to_toxins = 2) ∧
    environmentalRiskService p.air_quality_index p.exposure_to_toxins =
      (p.air_quality_index : ℚ) / 500 + (if p.exposure_to_toxins then 3/10 else 0) := by
  refine ⟨rfl, ?_, rfl⟩
  unfold environmentalRiskSpec
  split_ifs <;> norm_num

/-- C7: both normalizations `min(pack_years / cap, 1.0)` (cap 100 in
`patient_to_features`, cap 50 in `_add_derived_features`) are bounded to
[0, 1], monotonically non-decreasing in pack_years, and saturate at exactly 1
at and above their cap. -/
theorem pack_years_normalized_props (x y : ℚ) (hx : 0 ≤ x) (hxy : x ≤ y) :
    0 ≤ packYearsNormalizedRoutes x ∧
    packYearsNormalizedRoutes x ≤ 1 ∧
    packYearsNormalizedRoutes x ≤ packYearsNormalizedRoutes y ∧
    (100 ≤ x → packYearsNormalizedRoutes x = 1) ∧
    0 ≤ packYearsNormalizedService x ∧
    packYearsNormalizedService x ≤ 1 ∧
    packYearsNormalizedService x ≤ packYearsNormalizedService y ∧
    (50 ≤ x → packYearsNormalizedService x = 1) := by
  unfold packYearsNormalizedRoutes packYearsNormalizedService
  refine ⟨?_, ?_, ?_, ?_, ?_, ?_, ?_, ?_⟩
  · exact le_min (by positivity) (by norm_num)
  · exact min_le_right _ _
  · exact min_le_min (by linarith) le_rfl
  · intro h
    rw [min_eq_right (by linarith)]
  · exact le_min (by positivity) (by norm_num)
  · exact min_le_right _ _
  · exact min_le_min (by linarith) le_rfl
  · intro h
    rw [min_eq_right (by linarith)]

theorem pack_years_normalized_props_witness :
    packYearsNormalizedRoutes 120 = 1 ∧
    packYearsNormalizedService 120 = 1 ∧
    packYearsNormalizedRoutes 120 ≤ packYearsNormalizedRoutes 130 :=
  ⟨(pack_years_normalized_props 120 130 (by norm_num) (by norm_num)).2.2.2.1 (by norm_num),
   (pack_years_normalized_props 120 130 (by norm_num) (by norm_num)).2.2.2.2.2.2.2 (by norm_num),
   (pack_years_normalized_props 120 130 (by norm_num) (by norm_num)).2.2.1⟩

/-- C9: `comorbidities_count` is 0 for an absent (None or empty) field and for
the case-insensitive sentinel "NONE", and otherwise counts comma-separated
tokens, i.e. number of commas plus one (empty tokens included). -/
theorem comorbidities_count_rules :
    comorbiditiesCount none = 0 ∧
    comorbiditiesCount (some "") = 0 ∧
    (∀ s : String, pyUpper s.data = ("NONE").data → comorbiditiesCount (some s) = 0) ∧
    (∀ s : String, s.data ≠ [] → pyUpper s.data ≠ ("NONE").data →
      comorbiditiesCount (some s) = s.data.count ',' + 1) := by
  refine ⟨rfl, rfl, ?_, ?_⟩
  · intro s hs
    have hneg : ¬ (s.data ≠ [] ∧ pyUpper s.data ≠ ("NONE").data) := fun hh => hh.2 hs
    simp only [comorbiditiesCount]
    rw [if_neg hneg]
  · intro s h1 h2
    simp only [comorbiditiesCount]
    rw [if_pos ⟨h1, h2⟩]
    exact splitOnComma_length s.data

theorem comorbidities_count_rules_witness :
    comorbiditiesCount (some "nOnE") = 0 ∧
    comorbiditiesCount (some "DIABETES,HYPERTENSION") = 2 := by
  constructor
  · exact comorbidities_count_rules.2.2.1 "nOnE" (by decide)
  · have h := comorbidities_count_rules.2.2.2 "DIABETES,HYPERTENSION"
      (by decide) (by decide)
    rw [h]
    decide

/- ### Stable descending sort

Python's `list.sort(key=k, reverse=True)` is a stable sort by key in
descending order: elements with equal keys keep their original relative
order.  The stable descending ordering of a list is unique, so we model it by
stable insertion: each element is inserted after all already-placed elements
whose key is greater than or equal to its own. -/

def insertDescBy {α : Type} (key : α → ℚ) (x : α) : List α → List α
  | [] => [x]
  | a :: as => if key x ≤ key a then a :: insertDescBy key x as else x :: a :: as

def stableSortDescBy {α : Type} (key : α → ℚ) (l : List α) : List α :=
  l.foldl (fun acc x => insertDescBy key x acc) []

theorem mem_insertDescBy {α : Type} (key : α → ℚ) {y x : α} {l : List α}
    (hy : y ∈ insertDescBy key x l) : y = x ∨ y ∈ l := by
  induction l with
  | nil => simpa [insertDescBy] using hy
  | cons a as ih =>
    rw [insertDescBy] at hy
    by_cases hk : key x ≤ key a
    · rw [if_pos hk] at hy
      rcases List.mem_cons.mp hy with rfl | hy'
      · exact Or.inr (List.mem_cons_self _ _)
      · rcases ih hy' with h | h
        · exact Or.inl h
        · exact Or.inr (List.mem_cons_of_mem _ h)
    · rw [if_neg hk] at hy
      rcases List.mem_cons.mp hy with rfl | hy'
      · exact Or.inl rfl
      · exact Or.inr hy'

theorem insertDescBy_pairwise_lex {β : Type} (k : β → ℚ) (x : ℕ × β) (l : List (ℕ × β))
    (hl : l.Pairwise fun a b => k b.2 < k a.2 ∨ (k a.2 = k b.2 ∧ a.1 < b.1))
    (hidx : ∀ y ∈ l, y.1 < x.1) :
    (insertDescBy (fun p => k p.2) x l).Pairwise
      fun a b => k b.2 < k a.2 ∨ (k a.2 = k b.2 ∧ a.1 < b.1) := by
  induction l with
  | nil => simp [insertDescBy]
  | cons a as ih =>
    rcases List.pairwise_cons.mp hl with ⟨ha, has⟩
    rw [insertDescBy]
    by_cases hk : k x.2 ≤ k a.2
    · rw [if_pos hk]
      refine List.pairwise_cons.mpr ⟨?_, ?_⟩
      · intro y hy
        rcases mem_insertDescBy _ hy with rfl | hy'
        · rcases lt_or_eq_of_le hk with hlt | heq
          · exact Or.inl hlt
          · exact Or.inr ⟨heq.symm, hidx a (List.mem_cons_self _ _)⟩
        · exact ha y hy'
      · exact ih has fun y hy => hidx y (List.mem_cons_of_mem _ hy)
    · rw [if_neg hk]
      push_neg at hk
      refine List.pairwise_cons.mpr ⟨?_, hl⟩
      intro y hy
      rcases List.mem_cons.mp hy with rfl | hy'
      · exact Or.inl hk
      · have : k y.2 ≤ k a.2 := by
          rcases ha y hy' with h | h
          · exact le_of_lt h
          · exact le_of_eq h.1.symm
        exact Or.inl (lt_of_le_of_lt this hk)

theorem foldl_insertDescBy_pairwise_lex {β : Type} (k : β → ℚ) :
    ∀ (l acc : List (ℕ × β)),
      (acc.Pairwise fun a b => k b.2 < k a.2 ∨ (k a.2 = k b.2 ∧ a.1 < b.1)) →
      (∀ a ∈ acc, ∀ b ∈ l, a.1 < b.1) →
      (l.Pairwise fun a b => a.1 < b.1) →
      (l.foldl (fun acc x => insertDescBy (fun p => k p.2) x acc) acc).Pairwise
        fun a b => k b.2 < k a.2 ∨ (k a.2 = k b.2 ∧ a.1 < b.1) := by
  intro l
  induction l with
  | nil => intro acc hacc _ _; exact hacc
  | cons x xs ih =>
    intro acc hacc hcross hl
    rcases List.pairwise_cons.mp hl with ⟨hx, hxs⟩
    simp only [List.foldl_cons]
    apply ih
    · exact insertDescBy_pairwise_lex k x acc hacc
        fun y hy => hcross y hy x (List.mem_cons_self _ _)
    · intro a ha b hb
      rcases mem_insertDescBy _ ha with rfl | ha'
      · exact hx b hb
      · exact hcross a ha' b (List.mem_cons_of_mem _ hb)
    · exact hxs

/-- Enumerate a list with its original indices, starting at `n`. -/
def withIdxFrom {β : Type} (n : ℕ) : List β → List (ℕ × β)
  | [] => []
  | x :: xs => (n, x) :: withIdxFrom (n + 1) xs

def withIdx {β : Type} (l : List β) : List (ℕ × β) :=
  withIdxFrom 0 l

theorem fst_ge_of_mem_withIdxFrom {β : Type} {p : ℕ × β} :
    ∀ {n : ℕ} {l : List β}, p ∈ withIdxFrom n l → n ≤ p.1 := by
  intro n l
  induction l generalizing n with
  | nil => intro h; simp [withIdxFrom] at h
  | cons x xs ih =>
    intro h
    rw [withIdxFrom] at h
    rcases List.mem_cons.mp h with rfl | h'
    · exact le_refl _
    · exact le_trans (Nat.le_succ n) (ih h')

theorem withIdxFrom_pairwise {β : Type} :
    ∀ (n : ℕ) (l : List β), (withIdxFrom n l).Pairwise fun a b => a.1 < b.1 := by
  intro n l
  induction l generalizing n with
  | nil => exact List.Pairwise.nil
  | cons x xs ih =>
    rw [withIdxFrom]
    refine List.pairwise_cons.mpr ⟨?_, ih (n + 1)⟩
    intro y hy
    exact lt_of_lt_of_le (Nat.lt_succ_self n) (fst_ge_of_mem_withIdxFrom hy)

theorem withIdxFrom_map_snd {β : Type} :
    ∀ (n : ℕ) (l : List β), (withIdxFrom n l).map Prod.snd = l := by
  intro n l
  induction l generalizing n with
  | nil => rfl
  | cons x xs ih =>
    rw [withIdxFrom]
    simp [ih]

theorem insertDescBy_map_snd {β : Type} (k : β → ℚ) (x : ℕ × β) :
    ∀ l : List (ℕ × β),
      (insertDescBy (fun p => k p.2) x l).map Prod.snd =
        insertDescBy k x.2 (l.map Prod.snd) := by
  intro l
  induction l with
  | nil => rfl
  | cons a as ih =>
    simp only [insertDescBy, List.map_cons]
    by_cases hk : k x.2 ≤ k a.2
    · rw [if_pos hk, if_pos hk]
      simp [ih]
    · rw [if_neg hk, if_neg hk]
      simp

theorem foldl_insertDescBy_map_snd {β : Type} (k : β → ℚ) :
    ∀ (l acc : List (ℕ × β)),
      (l.foldl (fun acc x => insertDescBy (fun p => k p.2) x acc) acc).map Prod.snd =
        (l.map Prod.snd).foldl (fun acc x => insertDescBy k x acc) (acc.map Prod.snd) := by
  intro l
  induction l with
  | nil => intro acc; rfl
  | cons x xs ih =>
    intro acc
    simp only [List.foldl_cons, List.map_cons]
    rw [ih, insertDescBy_map_snd]

/-- Sorting a list is projecting the stable sort of its index-annotated
version. -/
theorem stableSortDescBy_eq_map_snd {β : Type} (k : β → ℚ) (l : List β) :
    stableSortDescBy k l =
      (stableSortDescBy (fun p => k p.2) (withIdx l)).map Prod.snd := by
  unfold stableSortDescBy withIdx
  rw [foldl_insertDescBy_map_snd, withIdxFrom_map_snd]
  rfl

theorem stableSortDescBy_idx_pairwise {β : Type} (k : β → ℚ) (l : List β) :
    (stableSortDescBy (fun p => k p.2) (withIdx l)).Pairwise
      fun a b => k b.2 < k a.2 ∨ (k a.2 = k b.2 ∧ a.1 < b.1) := by
  unfold stableSortDescBy withIdx
  exact foldl_insertDescBy_pairwise_lex k (withIdxFrom 0 l) []
    List.Pairwise.nil (by simp) (withIdxFrom_pairwise 0 l)

theorem stableSortDescBy_pairwise_key {β : Type} (k : β → ℚ) (l : List β) :
    (stableSortDescBy k l).Pairwise fun a b => k b ≤ k a := by
  rw [stableSortDescBy_eq_map_snd]
  refine List.Pairwise.map Prod.snd ?_ (stableSortDescBy_idx_pairwise k l)
  intro a b hab
  rcases hab with h | h
  · exact le_of_lt h
  · exact le_of_eq h.1.symm

/- ### Explanation ranking -/

structure FeatureContribution where
  feature : String
  contribution : ℚ
  direction : String

/-- The contribution records built by `_get_shap_contributions`
(model_loader.py): feature name, absolute SHAP value, sign direction. -/
def mkShapContribs (featureNames : List String) (values : List ℚ) :
    List FeatureContribution :=
  (featureNames.zip values).map fun nv =>
    { feature := nv.1
      contribution := abs nv.2
      direction := if (0:ℚ) < nv.2 then "positive" else "negative" }

/-- Embeds `_get_shap_contributions`: build contribution records, sort with
`contributions.sort(key=lambda x: x.contribution, reverse=True)` (a stable
descending sort), return the first 5. -/
def getShapContributions (featureNames : List String) (values : List ℚ) :
    List FeatureContribution :=
  (stableSortDescBy (fun c => c.contribution) (mkShapContribs featureNames values)).take 5

structure RiskFactorDetail where
  feature_name : String
  contribution : ℚ
  direction : String

/-- Embeds `PredictionService._get_top_risk_factors` with its default `top_n = 5`:
zip feature columns with model importances, sort with
`feature_importance.sort(key=lambda x: abs(x[1]), reverse=True)` (stable
descending by absolute importance), then report the first 5 with the signed
importance rounded to 4 decimals. -/
def getTopRiskFactors (featureColumns : List String) (importances : List ℚ) :
    List RiskFactorDetail :=
  ((stableSortDescBy (fun p : String × ℚ => abs p.2)
      (featureColumns.zip importances)).take 5).map
    fun p =>
      { feature_name := p.1
        contribution := pyRound4 p.2
        direction := if (0:ℚ) < p.2 then "positive" else "negative" }

/-- C8: in both explanation components the returned list has length at most
5, is sorted by descending absolute contribution, and ties between equal
sort keys keep the original feature order (lowest index first): the sorted
index-annotated list is strictly ordered lexicographically by
(key descending, original index ascending).  Both functions are pure, hence
deterministic for identical inputs. -/
theorem explanation_ranking_props (featureNames featureColumns : List String)
    (values importances : List ℚ) :
    (getShapContributions featureNames values).length ≤ 5 ∧
    ((getShapContributions featureNames values).Pairwise
      fun a b => b.contribution ≤ a.contribution) ∧
    getShapContributions featureNames values =
      ((stableSortDescBy (fun p : ℕ × FeatureContribution => p.2.contribution)
        (withIdx (mkShapContribs featureNames values))).map Prod.snd).take 5 ∧
    ((stableSortDescBy (fun p : ℕ × FeatureContribution => p.2.contribution)
        (withIdx (mkShapContribs featureNames values))).Pairwise
      fun a b => b.2.contribution < a.2.contribution ∨
        (a.2.contribution = b.2.contribution ∧ a.1 < b.1)) ∧
    (getTopRiskFactors featureColumns importances).length ≤ 5 ∧
    ((getTopRiskFactors featureColumns importances).Pairwise
      fun a b => |b.contribution| ≤ |a.contribution|) ∧
    ((stableSortDescBy (fun p : ℕ × (String × ℚ) => |p.2.2|)
        (withIdx (featureColumns.zip importances))).Pairwise
      fun a b => |b.2.2| < |a.2.2| ∨ (|a.2.2| = |b.2.2| ∧ a.1 < b.1)) := by
  refine ⟨?_, ?_, ?_, ?_, ?_, ?_, ?_⟩
  · unfold getShapContributions
    exact List.length_take_le 5 _
  · unfold getShapContributions
    exact List.Pairwise.sublist (List.take_sublist 5 _)
      (stableSortDescBy_pairwise_key _ _)
  · unfold getShapContributions
    rw [stableSortDescBy_eq_map_snd]
  · exact stableSortDescBy_idx_pairwise
      (fun c : FeatureContribution => c.contribution) _
  · unfold getTopRiskFactors
    rw [List.length_map]
    exact List.length_take_le 5 _
  · unfold getTopRiskFactors
    refine List.Pairwise.map _ ?_
      (List.Pairwise.sublist (List.take_sublist 5 _)
        (stableSortDescBy_pairwise_key (fun p : String × ℚ => |p.2|) _))
    intro a b hab
    exact abs_pyRound4_mono hab
  · exact stableSortDescBy_idx_pairwise (fun p : String × ℚ => |p.2|) _

/- ### Model loader and the /predict endpoint (routes/prediction.py,
core/model_loader.py)

The trained sklearn classifier and the SHAP explainer are opaque external
artifacts; they are modelled as explicit function fields.  Timestamps are
omitted (wall-clock metadata). -/

inductive HttpError where
  | serviceUnavailable503
  | internalServerError500
  | badRequest400
deriving DecidableEq, Repr

/-- Instrumentation of the pipeline stages, used to state that a stage was
never attempted. -/
inductive PipelineEvent where
  | derivedFeatures
  | scored
deriving DecidableEq, Repr

/-- The dictionary returned by `ModelLoader.predict`. -/
structure LoaderOutput where
  prediction : ℤ
  probability : ℚ
  risk_level : RiskLevel4
  confidence : ℚ
  top_features : List FeatureContribution
  model_version : String

/-- Embeds `ModelLoader` state: the loaded-model flag plus the opaque artifacts
(`model.predict`, optional `model.predict_proba` restricted to the positive
class, optional SHAP explainer, configured feature names and version). -/
structure ModelLoader where
  is_loaded : Bool
  modelPredict : List ℚ → ℤ
  modelPredictProba : Option (List ℚ → ℚ)
  shapValues : Option (List ℚ → List ℚ)
  featureNames : List String
  version : String

/-- Embeds `ModelLoader.predict`: raises `RuntimeError("Modelo no cargado")` when the
model has not been loaded; otherwise predicts, takes the positive-class
probability when `predict_proba` exists (else the raw prediction cast to
float), classifies risk, computes confidence, and attaches best-effort SHAP
contributions. -/
def ModelLoader.predict (L : ModelLoader) (features : List ℚ) :
    Except String LoaderOutput :=
  if L.is_loaded = false then .error "Modelo no cargado"
  else
    let prediction := L.modelPredict features
    let probability :=
      match L.modelPredictProba with
      | some proba => proba features
      | none => (prediction : ℚ)
    let top_features :=
      match L.shapValues with
      | some sv => getShapContributions L.featureNames (sv features)
      | none => []
    .ok
      { prediction := prediction
        probability := probability
        risk_level := classifyRisk probability
        confidence := calculateConfidence probability
        top_features := top_features
        model_version := L.version }

/-- Embeds `get_recommendation` (routes/prediction.py). -/
def getRecommendation (risk_level : RiskLevel4) : String :=
  match risk_level with
  | .LOW => "Continuar con controles de rutina. Mantener habitos saludables."
  | .MODERATE => "Se recomienda seguimiento medico en los proximos 3 meses."
  | .HIGH => "Se recomienda evaluacion medica especializada pronto."
  | .VERY_HIGH => "Se recomienda evaluacion medica urgente con especialista."

/-- The `/predict` response of routes/prediction.py (timestamp omitted). -/
structure RoutesPredictionResponse where
  prediction : ℤ
  probability : ℚ
  risk_level : RiskLevel4
  confidence : ℚ
  model_version : String
  top_features : List FeatureContribution
  recommendation : String

/-- The `/predict` endpoint of routes/prediction.py: a missing or unloaded
model loader yields HTTP 503 before any feature work; otherwise features are
derived, the loader predicts, and the response is assembled with probability
and confidence rounded to 4 decimals.  The second component records which
pipeline stages ran. -/
def predictRoute (loader : Option ModelLoader) (pyHash : String → ℤ)
    (patient : PatientData) :
    Except HttpError RoutesPredictionResponse × List PipelineEvent :=
  match loader with
  | none => (.error .serviceUnavailable503, [])
  | some L =>
    if L.is_loaded = false then (.error .serviceUnavailable503, [])
    else
      let features := patientToFeatures pyHash patient
      match L.predict features with
      | .error _ => (.error .internalServerError500, [.derivedFeatures])
      | .ok out =>
        (.ok
          { prediction := out.prediction
            probability := pyRound4 out.probability
            risk_level := out.risk_level
            confidence := pyRound4 out.confidence
            model_version := out.model_version
            top_features := out.top_features
            recommendation := getRecommendation out.risk_level },
         [.derivedFeatures, .scored])

/-- C5: whenever the classifier is not loaded (no loader instance, or its
loaded flag is false), `/predict` fails with the 503 service-unavailable
error and no pipeline stage runs — feature derivation is never attempted;
and `ModelLoader.predict` itself raises when the model is not loaded. -/
theorem model_unavailable_before_derivation (loader : Option ModelLoader)
    (pyHash : String → ℤ) (patient : PatientData)
    (h : loader = none ∨ ∃ L, loader = some L ∧ L.is_loaded = false) :
    predictRoute loader pyHash patient = (.error .serviceUnavailable503, []) ∧
    ∀ (L : ModelLoader) (features : List ℚ), L.is_loaded = false →
      L.predict features = .error "Modelo no cargado" := by
  constructor
  · rcases h with rfl | ⟨L, rfl, hL⟩
    · rfl
    · simp [predictRoute, hL]
  · intro L features hL
    simp [ModelLoader.predict, hL]

/-- A loader whose model never finished loading. -/
def offlineLoader : ModelLoader :=
  { is_loaded := false
    modelPredict := fun _ => 0
    modelPredictProba := none
    shapValues := none
    featureNames := []
    version := "1.0.0" }

theorem model_unavailable_before_derivation_witness :
    predictRoute (some offlineLoader) (fun _ => 0) examplePatient =
      (.error .serviceUnavailable503, []) ∧
    predictRoute none (fun _ => 0) examplePatient =
      (.error .serviceUnavailable503, []) :=
  ⟨(model_unavailable_before_derivation (some offlineLoader) (fun _ => 0)
      examplePatient (Or.inr ⟨offlineLoader, rfl, rfl⟩)).1,
   (model_unavailable_before_derivation none (fun _ => 0)
      examplePatient (Or.inl rfl)).1⟩

/- ### prediction_router.py: response assembly and batch endpoint -/

structure RouterResponse where
  prediction : String
  prediction_code : ℤ
  probability : ℚ
  confidence : ℚ
  risk_level : RiskLevel3
  requires_review : Bool
  model_version : String

/-- Response assembly of `predict` in prediction_router.py, as a function of
the predictor's unrounded probability and its configured threshold: the
Early/Advanced label and code come from the threshold, risk level, review
flag and confidence from the unrounded probability, while the probability
field itself is rounded to 4 decimals (`round(probability, 4)`);
prediction_id, top_factors and timing metadata are omitted. -/
def routerAssembleResponse (probability threshold : ℚ) (version : String) :
    RouterResponse :=
  { prediction := if threshold ≤ probability then "Advanced" else "Early"
    prediction_code := if threshold ≤ probability then 1 else 0
    probability := pyRound4 probability
    confidence := pyRound4 (calculateConfidence probability)
    risk_level := classifyRiskLevel probability
    requires_review := requiresMedicalReview probability
    model_version := version }

structure ServicePredictionResponse where
  prediction : String
  probability : ℚ
  risk_level : RiskLevel3
  confidence : ℚ
  requires_review : Bool
  recommendation : String
  model_version : String

/-- Embeds `PredictionService._generate_recommendation` (the `prediction` argument
does not influence the lookup). -/
def generateRecommendation (risk_level : RiskLevel3) : String :=
  match risk_level with
  | .high => "Derivacion urgente a oncologia pulmonar."
  | .medium => "Seguimiento medico requerido."
  | .low => "Riesgo bajo detectado."

/-- Response assembly of `PredictionService.predict` as a function of the
model's unrounded positive-class probability and the configured threshold:
steps 3-8 of the pipeline all consume the unrounded probability; only the
returned probability and confidence fields are rounded to 4 decimals. -/
def serviceAssembleResponse (probability threshold : ℚ) (version : String) :
    ServicePredictionResponse :=
  { prediction := if threshold ≤ probability then "Advanced" else "Early"
    probability := pyRound4 probability
    risk_level := serviceClassifyRisk probability
    confidence := pyRound4 (calculateConfidence probability)
    requires_review := requiresManualReview probability
    recommendation := generateRecommendation (serviceClassifyRisk probability)
    model_version := version }

/-- C10: the assembled response computes risk level, review flag, confidence
and the Early/Advanced label from the unrounded probability, but reports the
probability rounded to 4 decimals; for any p in [0.69995, 0.7) the reported
probability is exactly 0.7 while the returned risk level is the one of a
value strictly below 0.7 — applying the threshold table to the returned
probability would give a different (higher) tier.  Holds in both assembling
components. -/
theorem rounded_probability_vs_thresholds (p thr : ℚ) (v : String)
    (h1 : 69995/100000 ≤ p) (h2 : p < 7/10) :
    (routerAssembleResponse p thr v).probability = 7/10 ∧
    (routerAssembleResponse p thr v).risk_level = .medium ∧
    (routerAssembleResponse p thr v).requires_review = true ∧
    classifyRiskLevel (routerAssembleResponse p thr v).probability = .high ∧
    (serviceAssembleResponse p thr v).probability = 7/10 ∧
    (serviceAssembleResponse p thr v).risk_level = .medium ∧
    serviceClassifyRisk (serviceAssembleResponse p thr v).probability = .high := by
  have hr : pyRound4 p = 7/10 := pyRound4_band h1 h2
  have hmed : classifyRiskLevel p = .medium := by
    unfold classifyRiskLevel
    rw [if_neg (by linarith), if_pos (by linarith)]
  have hmed2 : serviceClassifyRisk p = .medium := by
    unfold serviceClassifyRisk HIGH_RISK_THRESHOLD MEDIUM_RISK_THRESHOLD
    rw [if_neg (by linarith), if_pos (by linarith)]
  refine ⟨hr, hmed, ?_, ?_, hr, hmed2, ?_⟩
  · show requiresMedicalReview p = true
    simp only [requiresMedicalReview, decide_eq_true_eq]
    constructor <;> linarith
  · show classifyRiskLevel (pyRound4 p) = .high
    rw [hr]
    norm_num [classifyRiskLevel]
  · show serviceClassifyRisk (pyRound4 p) = .high
    rw [hr]
    norm_num [serviceClassifyRisk, HIGH_RISK_THRESHOLD]

theorem rounded_probability_vs_thresholds_witness :
    (routerAssembleResponse (69995/100000) (1/2) "1.0.0").probability = 7/10 ∧
    (routerAssembleResponse (69995/100000) (1/2) "1.0.0").risk_level = .medium ∧
    classifyRiskLevel
      ((routerAssembleResponse (69995/100000) (1/2) "1.0.0").probability) = .high := by
  obtain ⟨a, b, _, d, _, _, _⟩ := rounded_probability_vs_thresholds
    (69995/100000) (1/2) "1.0.0" (by norm_num) (by norm_num)
  exact ⟨a, b, d⟩

/- ### Batch endpoints -/

/-- Per-patient outcome in the prediction_router.py batch loop: an element's
HTTPException is caught and recorded and the loop continues. -/
inductive BatchElemResult where
  | success (result : RouterResponse)
  | failure (error : HttpError)

/-- Embeds `predict_batch` of prediction_router.py: more than 100 patients is
rejected with HTTP 400 before any prediction runs; otherwise every patient
is predicted in order.  The second component counts how many per-patient
predictions were invoked. -/
def routerPredictBatch
    (predictOne : PatientData → Except HttpError RouterResponse)
    (patients : List PatientData) :
    Except HttpError (List BatchElemResult) × ℕ :=
  if 100 < patients.length then (.error .badRequest400, 0)
  else
    (.ok (patients.map fun p =>
      match predictOne p with
      | .ok r => .success r
      | .error e => .failure e),
     patients.length)

/-- Loop of `create_batch_predictions` (api/v1/endpoints/predict.py): any
element failure aborts the whole batch with HTTP 500; the second component
counts how many per-patient predictions were attempted. -/
def batchLoopV1
    (svcPredict : PatientData → Except String ServicePredictionResponse) :
    List PatientData → Except HttpError (List ServicePredictionResponse) × ℕ
  | [] => (.ok [], 0)
  | p :: ps =>
    match svcPredict p with
    | .error _ => (.error .internalServerError500, 1)
    | .ok r =>
      match batchLoopV1 svcPredict ps with
      | (.error e, n) => (.error e, n + 1)
      | (.ok rs, n) => (.ok (r :: rs), n + 1)

/-- Embeds `create_batch_predictions` (api/v1/endpoints/predict.py): more than 100
patients is rejected with HTTP 400 before any prediction runs. -/
def createBatchPredictions
    (svcPredict : PatientData → Except String ServicePredictionResponse)
    (patients : List PatientData) :
    Except HttpError (List ServicePredictionResponse) × ℕ :=
  if 100 < patients.length then (.error .badRequest400, 0)
  else batchLoopV1 svcPredict patients

/-- C6: in both batch endpoints, a batch longer than the cap of 100 is
rejected outright as a 400 error with zero per-patient predictions invoked —
no element is processed and no truncated result is returned. -/
theorem batch_cap_rejects_oversized
    (predictOne : PatientData → Except HttpError RouterResponse)
    (svcPredict : PatientData → Except String ServicePredictionResponse)
    (patients patientsV1 : List PatientData)
    (h : 100 < patients.length) (hV1 : 100 < patientsV1.length) :
    routerPredictBatch predictOne patients = (.error .badRequest400, 0) ∧
    createBatchPredictions svcPredict patientsV1 = (.error .badRequest400, 0) := by
  constructor
  · unfold routerPredictBatch
    rw [if_pos h]
  · unfold createBatchPredictions
    rw [if_pos hV1]

theorem batch_cap_rejects_oversized_witness :
    routerPredictBatch (fun _ => .error .serviceUnavailable503)
      (List.replicate 101 examplePatient) = (.error .badRequest400, 0) ∧
    createBatchPredictions (fun _ => .error "Modelo no cargado")
      (List.replicate 101 examplePatient) = (.error .badRequest400, 0) :=
  batch_cap_rejects_oversized _ _ _ _
    (by simp [List.length_replicate]) (by simp [List.length_replicate])

end LungLife
